import Mathlib

/-!
Verification of the per-worker scheduling core declared in
`src/bthread/task_group.h` (TaskGroup, CPUTimeStat, AtomicInteger128,
ExitException) against its natural-language specification.

Modelling conventions:
* an `int64_t` that the code manipulates bit-wise (`&`, `|`, `<<`) is embedded
  as its two's-complement 64-bit pattern, a `Nat` below `2 ^ 64`;
* an `int64_t` that the code only adds and compares is embedded as a
  mathematical `Int` (signed overflow of `int64_t` is undefined behaviour in
  C++, so the defined executions are exactly the unbounded ones);
* a `void*` payload is embedded as a `Nat` address;
* stateful methods become state-passing functions.
-/

namespace bthread

/-- Two's-complement 64-bit bit pattern of a signed 64-bit value. -/
def toPat64 (i : Int) : Nat := (i % (2 : Int) ^ 64).toNat

/-- Signed (int64_t) reading of a 64-bit bit pattern. -/
def ofPat64 (n : Nat) : Int := if n < 2 ^ 63 then (n : Int) else (n : Int) - 2 ^ 64

/-- Value of AtomicInteger128: a pair of 64-bit words, `v1` kept as a bit
pattern (it is manipulated bit-wise by CPUTimeStat) and `v2` as a signed
value (it is only added to). -/
structure AtomicInteger128.Value where
  v1 : Nat
  v2 : Int
deriving DecidableEq, Repr

/-- AtomicInteger128: holds a 16-byte pair; `load`/`store` are defined outside
the header. -/
structure AtomicInteger128 where
  _value : AtomicInteger128.Value
deriving DecidableEq, Repr

/-- Modelled from the spec: the body of `AtomicInteger128::load` is not under
src (only declared in the header); per the spec it atomically reads the whole
pair, which in this sequential embedding is the stored pair. -/
def AtomicInteger128.load (a : AtomicInteger128) : AtomicInteger128.Value :=
  a._value

/-- Source `load_unsafe`: plain read of the pair. -/
def AtomicInteger128.load_unsafe (a : AtomicInteger128) : AtomicInteger128.Value :=
  a._value

/-- Modelled from the spec: the body of `AtomicInteger128::store` is not under
src; per the spec it atomically replaces the whole pair. -/
def AtomicInteger128.store (a : AtomicInteger128) (value : AtomicInteger128.Value) :
    AtomicInteger128 :=
  { a with _value := value }

/-- Mask constant `LAST_SCHEDULING_TIME_MASK = 0x7FFFFFFFFFFFFFFF`. -/
def LAST_SCHEDULING_TIME_MASK : Nat := 0x7FFFFFFFFFFFFFFF

/-- Mask constant `TASK_TYPE_MASK = 0x8000000000000000` (bit pattern of the
int64_t constant). -/
def TASK_TYPE_MASK : Nat := 0x8000000000000000

/-- CPUTimeStat: first word packs the last scheduling time (bits 0..62) and
the task-type bit (bit 63); second word is the cumulated CPU time. -/
structure CPUTimeStat where
  _last_run_ns_and_type : Nat
  _cumulated_cputime_ns : Int
deriving DecidableEq, Repr

/-- Source constructor `CPUTimeStat()` : both words zero. -/
def CPUTimeStat.init : CPUTimeStat :=
  { _last_run_ns_and_type := 0, _cumulated_cputime_ns := 0 }

/-- Source constructor `CPUTimeStat(AtomicInteger128::Value value)`. -/
def CPUTimeStat.ofValue (value : AtomicInteger128.Value) : CPUTimeStat :=
  { _last_run_ns_and_type := value.v1, _cumulated_cputime_ns := value.v2 }

/-- Source conversion `operator AtomicInteger128::Value()`. -/
def CPUTimeStat.toValue (s : CPUTimeStat) : AtomicInteger128.Value :=
  { v1 := s._last_run_ns_and_type, v2 := s._cumulated_cputime_ns }

/-- Source `set_last_run_ns(last_run_ns, main_task)`:
`_last_run_ns_and_type = (last_run_ns & LAST_SCHEDULING_TIME_MASK) | (int64_t(main_task) << 63)`. -/
def CPUTimeStat.set_last_run_ns (s : CPUTimeStat) (last_run_ns : Int)
    (main_task : Bool) : CPUTimeStat :=
  { s with _last_run_ns_and_type :=
      (toPat64 last_run_ns &&& LAST_SCHEDULING_TIME_MASK) |||
      ((if main_task then 1 else 0) <<< 63) }

/-- Source `last_run_ns()`: `_last_run_ns_and_type & LAST_SCHEDULING_TIME_MASK`. -/
def CPUTimeStat.last_run_ns (s : CPUTimeStat) : Int :=
  ofPat64 (s._last_run_ns_and_type &&& LAST_SCHEDULING_TIME_MASK)

/-- Source `last_run_ns_and_type()`: the raw first word. -/
def CPUTimeStat.last_run_ns_and_type (s : CPUTimeStat) : Nat :=
  s._last_run_ns_and_type

/-- Source `is_main_task()`: `_last_run_ns_and_type & TASK_TYPE_MASK`,
converted to bool (nonzero). -/
def CPUTimeStat.is_main_task (s : CPUTimeStat) : Bool :=
  s._last_run_ns_and_type &&& TASK_TYPE_MASK != 0

/-- Source `add_cumulated_cputime_ns(cputime_ns, main_task)`: returns
unchanged for the main task, otherwise `_cumulated_cputime_ns += cputime_ns`. -/
def CPUTimeStat.add_cumulated_cputime_ns (s : CPUTimeStat) (cputime_ns : Int)
    (main_task : Bool) : CPUTimeStat :=
  if main_task then s
  else { s with _cumulated_cputime_ns := s._cumulated_cputime_ns + cputime_ns }

/-- Source `cumulated_cputime_ns()`: the second word. -/
def CPUTimeStat.cumulated_cputime_ns (s : CPUTimeStat) : Int :=
  s._cumulated_cputime_ns

/-- AtomicCPUTimeStat: a CPUTimeStat stored in an AtomicInteger128 cell. -/
structure AtomicCPUTimeStat where
  _cpu_time_stat : AtomicInteger128
deriving DecidableEq, Repr

/-- Source `AtomicCPUTimeStat::load`: atomic load then the Value constructor. -/
def AtomicCPUTimeStat.load (a : AtomicCPUTimeStat) : CPUTimeStat :=
  CPUTimeStat.ofValue (a._cpu_time_stat.load)

/-- Source `AtomicCPUTimeStat::load_unsafe`. -/
def AtomicCPUTimeStat.load_unsafe (a : AtomicCPUTimeStat) : CPUTimeStat :=
  CPUTimeStat.ofValue (a._cpu_time_stat.load_unsafe)

/-- Source `AtomicCPUTimeStat::store`: converts to a Value and stores it. -/
def AtomicCPUTimeStat.store (a : AtomicCPUTimeStat) (cpu_time_stat : CPUTimeStat) :
    AtomicCPUTimeStat :=
  { a with _cpu_time_stat := a._cpu_time_stat.store cpu_time_stat.toValue }

/-- Masking the packed word with the 63-bit timestamp mask recovers the
timestamp, whatever the type bit is. -/
theorem land_mask_or_shift {x : Nat} (b : Nat) (h : x < 2 ^ 63) :
    ((x &&& (2 ^ 63 - 1)) ||| (b <<< 63)) &&& (2 ^ 63 - 1) = x := by
  apply Nat.eq_of_testBit_eq
  intro i
  simp only [Nat.testBit_land, Nat.testBit_lor, Nat.testBit_shiftLeft,
    Nat.testBit_two_pow_sub_one]
  by_cases hi : i < 63
  · simp [hi, show ¬ i ≥ 63 by omega]
  · have hx : x.testBit i = false :=
      Nat.testBit_lt_two_pow
        (lt_of_lt_of_le h (Nat.pow_le_pow_right (by norm_num) (by omega)))
    simp [hi, hx]

/-- Bit 63 of the packed word is exactly the main-task flag. -/
theorem testBit63_or_shift (x : Nat) (main : Bool) :
    ((x &&& (2 ^ 63 - 1)) ||| ((if main then 1 else 0) <<< 63)).testBit 63 = main := by
  simp only [Nat.testBit_lor, Nat.testBit_land, Nat.testBit_shiftLeft,
    Nat.testBit_two_pow_sub_one]
  cases main <;> simp

/-- C1: CPUTimeStat packing — for every timestamp `ns` with `0 ≤ ns < 2 ^ 63`
and every boolean `main`, after `set_last_run_ns ns main` the accessor
`last_run_ns` returns `ns` (bits 0..62 of the first word) and `is_main_task`
returns `main` (bit 63). -/
theorem C1_cpu_time_stat_packing (s : CPUTimeStat) (ns : Int) (main : Bool)
    (h0 : 0 ≤ ns) (h1 : ns < 2 ^ 63) :
    (s.set_last_run_ns ns main).last_run_ns = ns ∧
    (s.set_last_run_ns ns main).is_main_task = main := by
  have hmask : LAST_SCHEDULING_TIME_MASK = 2 ^ 63 - 1 := by norm_num [LAST_SCHEDULING_TIME_MASK]
  have htype : TASK_TYPE_MASK = 2 ^ 63 := by norm_num [TASK_TYPE_MASK]
  have hpat : toPat64 ns = ns.toNat := by
    unfold toPat64
    rw [Int.emod_eq_of_lt h0 (by omega)]
  have hlt : ns.toNat < 2 ^ 63 := by omega
  constructor
  · show ofPat64 _ = ns
    simp only [CPUTimeStat.set_last_run_ns, hmask, hpat]
    rw [land_mask_or_shift _ hlt]
    unfold ofPat64
    rw [if_pos hlt]
    omega
  · show (_ &&& TASK_TYPE_MASK != 0) = main
    simp only [CPUTimeStat.set_last_run_ns, hmask, htype, hpat]
    rw [Nat.and_two_pow, testBit63_or_shift _ main]
    cases main <;> simp

/-- C1 witness: at `ns = 5`, `main = true`, starting from the zero stat. -/
theorem C1_cpu_time_stat_packing_witness :
    (CPUTimeStat.init.set_last_run_ns 5 true).last_run_ns = 5 ∧
    (CPUTimeStat.init.set_last_run_ns 5 true).is_main_task = true :=
  C1_cpu_time_stat_packing CPUTimeStat.init 5 true (by norm_num) (by norm_num)

/-- C2: CPU accounting accumulates only non-main time and never decreases —
adding with `main_task = true` leaves the cumulated time unchanged, adding
with `main_task = false` adds exactly `delta`, and for a non-negative `delta`
the cumulated time never decreases either way. -/
theorem C2_add_cumulated_cputime (s : CPUTimeStat) (delta : Int) (h : 0 ≤ delta) :
    (s.add_cumulated_cputime_ns delta true).cumulated_cputime_ns
      = s.cumulated_cputime_ns ∧
    (s.add_cumulated_cputime_ns delta false).cumulated_cputime_ns
      = s.cumulated_cputime_ns + delta ∧
    ∀ main : Bool, s.cumulated_cputime_ns
      ≤ (s.add_cumulated_cputime_ns delta main).cumulated_cputime_ns := by
  refine ⟨rfl, rfl, ?_⟩
  intro main
  cases main <;>
    simp only [CPUTimeStat.add_cumulated_cputime_ns, CPUTimeStat.cumulated_cputime_ns,
      if_pos, if_neg, Bool.false_eq_true, not_false_iff, ite_true, ite_false] <;>
    omega

/-- C2 witness: at `delta = 3` on a stat with cumulated time 5. -/
theorem C2_add_cumulated_cputime_witness :
    ((CPUTimeStat.mk 0 5).add_cumulated_cputime_ns 3 true).cumulated_cputime_ns = 5 ∧
    ((CPUTimeStat.mk 0 5).add_cumulated_cputime_ns 3 false).cumulated_cputime_ns = 5 + 3 ∧
    ∀ main : Bool, (5 : Int)
      ≤ ((CPUTimeStat.mk 0 5).add_cumulated_cputime_ns 3 main).cumulated_cputime_ns :=
  C2_add_cumulated_cputime (CPUTimeStat.mk 0 5) 3 (by norm_num)

/-- C9: round-trip of the packed pair — converting a CPUTimeStat to an
AtomicInteger128::Value and back preserves both words, and an
AtomicCPUTimeStat store followed by load recovers the stored stat exactly. -/
theorem C9_value_round_trip (s : CPUTimeStat) (a : AtomicCPUTimeStat) :
    (CPUTimeStat.ofValue s.toValue).last_run_ns_and_type = s.last_run_ns_and_type ∧
    (CPUTimeStat.ofValue s.toValue).cumulated_cputime_ns = s.cumulated_cputime_ns ∧
    (a.store s).load = s := by
  refine ⟨rfl, rfl, ?_⟩
  cases s
  rfl

/-- Modelled from the spec: `RemoteTaskQueue::pop` is declared outside this
header; per the spec the remote run queue is a FIFO, so pop takes the front
element and fails on an empty queue. -/
def remote_rq_pop : List Nat → Option (Nat × List Nat)
  | [] => none
  | t :: ts => some (t, ts)

/-- State of a TaskGroup as seen by `steal_task`: the remote run queue, the
remembered ParkingLot state, the ParkingLot state `_pl->get_state()` would
currently return, and the steal rotation state. -/
structure TaskGroupSteal where
  _remote_rq : List Nat
  _last_pl_state : Nat
  pl_state : Nat
  _steal_seed : Nat
  _steal_offset : Nat
deriving DecidableEq, Repr

/-- Source `TaskGroup::steal_task` (inline in the header): first pop the own
remote run queue and return on success; otherwise capture the ParkingLot
state into `_last_pl_state` and ask TaskControl to steal using `_steal_seed`
(by address, so it may be updated) and `_steal_offset`. `control` abstracts
`TaskControl::steal_task`, whose body is outside this header: it maps the
seed and offset to an optional stolen tid and the updated seed. -/
def steal_task (control : Nat → Nat → Option Nat × Nat) (g : TaskGroupSteal) :
    Option Nat × TaskGroupSteal :=
  match remote_rq_pop g._remote_rq with
  | some (t, rest) => (some t, { g with _remote_rq := rest })
  | none =>
    let g1 := { g with _last_pl_state := g.pl_state }
    let r := control g1._steal_seed g1._steal_offset
    (r.1, { g1 with _steal_seed := r.2 })

/-- C4: steal order — when the remote run queue is nonempty, `steal_task`
returns its front tid, touches neither the ParkingLot snapshot nor the steal
state, and never consults TaskControl (the result is the same for any two
`control` functions); only when the remote queue is empty does it capture the
ParkingLot state and return what TaskControl's steal yields for
`_steal_seed` and `_steal_offset`. -/
theorem C4_steal_task_order (g : TaskGroupSteal)
    (control : Nat → Nat → Option Nat × Nat) :
    (∀ t ts, g._remote_rq = t :: ts →
      steal_task control g = (some t, { g with _remote_rq := ts }) ∧
      ∀ control2, steal_task control2 g = steal_task control g) ∧
    (g._remote_rq = [] →
      (steal_task control g).1 = (control g._steal_seed g._steal_offset).1 ∧
      (steal_task control g).2._last_pl_state = g.pl_state) := by
  constructor
  · intro t ts h
    constructor
    · simp [steal_task, h, remote_rq_pop]
    · intro control2
      simp [steal_task, h, remote_rq_pop]
  · intro h
    simp [steal_task, h, remote_rq_pop]

/-- C4 witness: a group whose remote queue holds tid 7. -/
theorem C4_steal_task_order_witness :
    steal_task (fun s _ => (some 9, s)) (TaskGroupSteal.mk [7, 8] 0 3 1 2)
      = (some 7, TaskGroupSteal.mk [8] 0 3 1 2) ∧
    steal_task (fun s _ => (none, s)) (TaskGroupSteal.mk [7, 8] 0 3 1 2)
      = steal_task (fun s _ => (some 9, s)) (TaskGroupSteal.mk [7, 8] 0 3 1 2) :=
  ((C4_steal_task_order (TaskGroupSteal.mk [7, 8] 0 3 1 2)
      (fun s _ => (some 9, s))).1 7 [8] rfl).imp id (fun h => h (fun s _ => (none, s)))

/-- State of a TaskGroup as seen by `current_task_cpu_clock_ns`: the thread
CPU clock captured on last entry to a bthread and the current task's
accumulated CPU usage `_cur_meta->stat.cpu_usage_ns`. -/
structure TaskGroupClock where
  _last_cpu_clock_ns : Int
  cur_meta_cpu_usage_ns : Int
deriving DecidableEq, Repr

/-- Source `TaskGroup::current_task_cpu_clock_ns` (inline in the header):
returns 0 when `_last_cpu_clock_ns` is 0, else the current task's
`stat.cpu_usage_ns` plus the thread CPU time elapsed since
`_last_cpu_clock_ns`; `cputhread_time_ns` is the clock value read now. -/
def current_task_cpu_clock_ns (g : TaskGroupClock) (cputhread_time_ns : Int) : Int :=
  if g._last_cpu_clock_ns = 0 then 0
  else g.cur_meta_cpu_usage_ns + (cputhread_time_ns - g._last_cpu_clock_ns)

/-- C8: disabled-accounting sentinel — `current_task_cpu_clock_ns` returns 0
when `_last_cpu_clock_ns` is 0, and otherwise the current task's accumulated
`cpu_usage_ns` plus the thread CPU time elapsed since the capture. -/
theorem C8_cpu_clock_sentinel (g : TaskGroupClock) (now : Int) :
    (g._last_cpu_clock_ns = 0 → current_task_cpu_clock_ns g now = 0) ∧
    (g._last_cpu_clock_ns ≠ 0 → current_task_cpu_clock_ns g now
      = g.cur_meta_cpu_usage_ns + (now - g._last_cpu_clock_ns)) := by
  unfold current_task_cpu_clock_ns
  constructor
  · intro h
    rw [if_pos h]
  · intro h
    rw [if_neg h]

/-- C8 witness: the disabled case at clock 0 and the enabled case at clock 5
with usage 7, read at 100. -/
theorem C8_cpu_clock_sentinel_witness :
    current_task_cpu_clock_ns (TaskGroupClock.mk 0 7) 100 = 0 ∧
    current_task_cpu_clock_ns (TaskGroupClock.mk 5 7) 100 = 7 + (100 - 5) :=
  ⟨(C8_cpu_clock_sentinel (TaskGroupClock.mk 0 7) 100).1 rfl,
   (C8_cpu_clock_sentinel (TaskGroupClock.mk 5 7) 100).2 (by decide)⟩

/-- Source `ExitException` (exception for exiting a bthread): carries the
`void*` value passed to its constructor, modelled as a `Nat` address. -/
structure ExitException where
  _value : Nat
deriving DecidableEq, Repr

/-- Source `ExitException::value()`: returns the stored value. -/
def ExitException.value (e : ExitException) : Nat := e._value

/-- Ltask identifier: slot index into the meta pool plus generation counter. -/
structure BthreadId where
  slot : Nat
  version : Nat
deriving DecidableEq, Repr

/-- The fields of the externally defined TaskMeta that this core reads and
writes: generation, creation attributes, sticky flags, termination mark and
stored return value. -/
structure TaskMetaM where
  version : Nat
  attr : Nat
  stop : Bool
  interrupted : Bool
  terminated : Bool
  return_value : Nat
deriving DecidableEq, Repr

/-- Meta pool: maps a slot to the meta currently occupying it, if any. -/
def MetaPool : Type := Nat → Option TaskMetaM

/-- Modelled from the spec: `address_meta` resolves a tid to its meta and
returns null on a stale generation (the pool's version for the slot differs
from the tid's). -/
def address_meta (pool : MetaPool) (tid : BthreadId) : Option TaskMetaM :=
  match pool tid.slot with
  | some m => if m.version = tid.version then some m else none
  | none => none

/-- POSIX error code used for invalid arguments. -/
def EINVAL : Int := 22

/-- Modelled from the spec: `TaskGroup::join` is declared in the header but
its body is not under src. Per the spec it resolves the meta; on a generation
mismatch it returns 0 (the task already terminated); otherwise joining self
is an error, and else it waits on the version butex until the generation
advances and then copies the stored return value. `poolAfter` is the pool
state once that wait completes. -/
def join (pool poolAfter : MetaPool) (cur_tid tid : BthreadId) : Int × Option Nat :=
  match address_meta pool tid with
  | none => (0, none)
  | some _ =>
    if tid = cur_tid then (EINVAL, none)
    else
      match poolAfter tid.slot with
      | some m => (0, some m.return_value)
      | none => (0, none)

/-- Modelled from the spec: `TaskGroup::interrupt` is declared in the header
but its body is not under src. Per the spec it is a no-op success on a stale
tid, and on a live tid it sets the meta's sticky interrupt flag, wakes any
blocking primitive the task is parked on, and returns success even when the
task is not blocked. -/
def interrupt (pool : MetaPool) (tid : BthreadId) : Int × MetaPool :=
  match address_meta pool tid with
  | none => (0, pool)
  | some m =>
    (0, fun s => if s = tid.slot then some { m with interrupted := true } else pool s)

/-- Result of `get_attr`: return code, whether errno was set, and the copied
attributes. -/
structure GetAttrResult where
  ret : Int
  errno_is_set : Bool
  attr : Option Nat
deriving DecidableEq, Repr

/-- Modelled from the spec: `TaskGroup::get_attr` is declared in the header
but its body is not under src. Per the header comment it puts the attributes
associated with the tid into `*attr` and returns 0 on success, -1 otherwise
with errno set; a stale generation is the error case. -/
def get_attr (pool : MetaPool) (tid : BthreadId) : GetAttrResult :=
  match address_meta pool tid with
  | none => GetAttrResult.mk (-1) true none
  | some m => GetAttrResult.mk 0 false (some m.attr)

/-- C5: invalid-id behaviour — for every tid whose generation has advanced
(the pool's meta at its slot carries a different version), `join` returns 0,
`interrupt` returns 0 as a no-op (the pool is unchanged), and `get_attr`
returns -1 with errno set. -/
theorem C5_stale_tid_behaviour (pool poolAfter : MetaPool) (cur_tid tid : BthreadId)
    (m : TaskMetaM) (hm : pool tid.slot = some m) (hv : m.version ≠ tid.version) :
    (join pool poolAfter cur_tid tid).1 = 0 ∧
    interrupt pool tid = (0, pool) ∧
    (get_attr pool tid).ret = -1 ∧ (get_attr pool tid).errno_is_set = true := by
  have hstale : address_meta pool tid = none := by
    unfold address_meta
    rw [hm]
    exact if_neg hv
  refine ⟨?_, ?_, ?_, ?_⟩ <;> simp [join, interrupt, get_attr, hstale]

/-- C5 witness: slot 0 holds generation 2 while the tid carries generation 1. -/
theorem C5_stale_tid_behaviour_witness :
    (join (fun _ => some (TaskMetaM.mk 2 0 false false true 0))
        (fun _ => some (TaskMetaM.mk 2 0 false false true 0))
        (BthreadId.mk 9 9) (BthreadId.mk 0 1)).1 = 0 ∧
    interrupt (fun _ => some (TaskMetaM.mk 2 0 false false true 0)) (BthreadId.mk 0 1)
      = (0, fun _ => some (TaskMetaM.mk 2 0 false false true 0)) ∧
    (get_attr (fun _ => some (TaskMetaM.mk 2 0 false false true 0))
        (BthreadId.mk 0 1)).ret = -1 ∧
    (get_attr (fun _ => some (TaskMetaM.mk 2 0 false false true 0))
        (BthreadId.mk 0 1)).errno_is_set = true :=
  C5_stale_tid_behaviour (fun _ => some (TaskMetaM.mk 2 0 false false true 0))
    (fun _ => some (TaskMetaM.mk 2 0 false false true 0))
    (BthreadId.mk 9 9) (BthreadId.mk 0 1) (TaskMetaM.mk 2 0 false false true 0)
    rfl (by decide)

/-- Outcome of running an ltask body: a plain return or the ExitSignal
sentinel raised by `bthread_exit`. -/
inductive TaskBodyOutcome where
  | returns (v : Nat)
  | raisesExit (e : ExitException)
deriving DecidableEq, Repr

/-- Modelled from the spec: `bthread_exit(value)` raises the ExitSignal
sentinel carrying the value, as an `ExitException` constructed with it. -/
def bthread_exit (value : Nat) : TaskBodyOutcome :=
  TaskBodyOutcome.raisesExit (ExitException.mk value)

/-- Modelled from the spec: TaskRunner invokes the entry and catches the
ExitSignal sentinel at the ltask root to extract the explicit return value;
a plain return yields the returned value. -/
def task_runner_return_value : TaskBodyOutcome → Nat
  | TaskBodyOutcome.returns v => v
  | TaskBodyOutcome.raisesExit e => e.value

/-- Modelled from the spec: on completion TaskRunner stores the return value
into the meta, marks it terminated and bumps the generation so joiners wake. -/
def task_runner_finish (m : TaskMetaM) (outcome : TaskBodyOutcome) : TaskMetaM :=
  { m with return_value := task_runner_return_value outcome
         , terminated := true
         , version := m.version + 1 }

/-- C6: exit-value propagation — `ExitException` constructed with `v`
satisfies `value () = v`, and joining a task whose body raised
`bthread_exit v` yields exactly `v`: the joiner resolves the live meta, the
runner stores the extracted value and bumps the generation, and `join`
returns `(0, some v)`. -/
theorem C6_exit_value_propagation (v : Nat) (pool : MetaPool)
    (cur_tid tid : BthreadId) (m : TaskMetaM)
    (hm : pool tid.slot = some m) (hv : m.version = tid.version)
    (hself : tid ≠ cur_tid) :
    (ExitException.mk v).value = v ∧
    task_runner_return_value (bthread_exit v) = v ∧
    join pool
      (fun s => if s = tid.slot then some (task_runner_finish m (bthread_exit v))
                else pool s)
      cur_tid tid = (0, some v) := by
  have hlive : address_meta pool tid = some m := by
    unfold address_meta
    rw [hm]
    exact if_pos hv
  refine ⟨rfl, rfl, ?_⟩
  simp [join, hlive, hself, task_runner_finish, task_runner_return_value, bthread_exit,
    ExitException.value]

/-- C6 witness: value 42 propagated through exit, store and join. -/
theorem C6_exit_value_propagation_witness :
    (ExitException.mk 42).value = 42 ∧
    task_runner_return_value (bthread_exit 42) = 42 ∧
    join (fun _ => some (TaskMetaM.mk 1 0 false false false 0))
      (fun s => if s = (BthreadId.mk 0 1).slot
                then some (task_runner_finish (TaskMetaM.mk 1 0 false false false 0)
                  (bthread_exit 42))
                else (fun _ => some (TaskMetaM.mk 1 0 false false false 0)) s)
      (BthreadId.mk 9 9) (BthreadId.mk 0 1) = (0, some 42) :=
  C6_exit_value_propagation 42 (fun _ => some (TaskMetaM.mk 1 0 false false false 0))
    (BthreadId.mk 9 9) (BthreadId.mk 0 1) (TaskMetaM.mk 1 0 false false false 0)
    rfl rfl (by decide)

/-- Modelled from the spec: `WorkStealingQueue::push_bottom` is declared
outside this header; per the spec the local run queue is bounded with a fixed
capacity and `push_bottom` returns false when full. -/
def wsq_push (capacity : Nat) (q : List Nat) (tid : Nat) : Option (List Nat) :=
  if q.length < capacity then some (q ++ [tid]) else none

/-- Modelled from the spec: `TaskGroup::push_rq` is declared in the header
(its comment: push into `_rq`; if `_rq` is full, retry after some time,
indefinitely) but its body is not under src. `qs k` is the queue contents
observed at retry `k` (stealers may drain it between attempts) and `fuel`
bounds how many attempts are unrolled; the loop itself never gives up.
Returns the attempt index and the queue after the successful push. -/
def push_rq (capacity : Nat) (qs : Nat → List Nat) (tid : Nat) :
    Nat → Nat → Option (Nat × List Nat)
  | _, 0 => none
  | k, fuel + 1 =>
    match wsq_push capacity (qs k) tid with
    | some q => some (k, q)
    | none => push_rq capacity qs tid (k + 1) fuel

/-- When `push_rq` returns, the tid was enqueued at the successful attempt
and every earlier attempt found the queue full. -/
theorem push_rq_success (capacity : Nat) (qs : Nat → List Nat) (tid : Nat) :
    ∀ fuel k j q, push_rq capacity qs tid k fuel = some (j, q) →
      q = qs j ++ [tid] ∧ tid ∈ q ∧
      ∀ i, k ≤ i → i < j → capacity ≤ (qs i).length := by
  intro fuel
  induction fuel with
  | zero => intro k j q h; exact absurd h (by simp [push_rq])
  | succ n ih =>
    intro k j q h
    unfold push_rq at h
    by_cases hfull : (qs k).length < capacity
    · rw [wsq_push, if_pos hfull] at h
      obtain ⟨hj, hq⟩ : k = j ∧ qs k ++ [tid] = q := by
        have := Option.some.inj h
        exact ⟨congrArg Prod.fst this, congrArg Prod.snd this⟩
      subst hj
      refine ⟨hq.symm, ?_, ?_⟩
      · rw [← hq]; simp
      · intro i h1 h2; omega
    · rw [wsq_push, if_neg hfull] at h
      obtain ⟨hq, hmem, hfulls⟩ := ih (k + 1) j q h
      refine ⟨hq, hmem, ?_⟩
      intro i h1 h2
      by_cases hik : i = k
      · subst hik; omega
      · exact hfulls i (by omega) h2

/-- While the queue stays full, `push_rq` keeps retrying and never returns. -/
theorem push_rq_full_no_return (capacity : Nat) (qs : Nat → List Nat) (tid : Nat)
    (hfull : ∀ k, capacity ≤ (qs k).length) :
    ∀ fuel k, push_rq capacity qs tid k fuel = none := by
  intro fuel
  induction fuel with
  | zero => intro k; rfl
  | succ n ih =>
    intro k
    unfold push_rq
    rw [wsq_push, if_neg (by have := hfull k; omega)]
    exact ih (k + 1)

/-- C7: push_rq never drops a task — whenever the retry loop returns, the tid
has been enqueued into the local run queue and every earlier attempt saw a
full queue; and when the queue stays full forever the loop never returns, for
any amount of unrolling. -/
theorem C7_push_rq_never_drops (capacity : Nat) (qs : Nat → List Nat) (tid : Nat) :
    (∀ fuel k j q, push_rq capacity qs tid k fuel = some (j, q) →
      tid ∈ q ∧ q = qs j ++ [tid] ∧ ∀ i, k ≤ i → i < j → capacity ≤ (qs i).length) ∧
    ((∀ i, capacity ≤ (qs i).length) →
      ∀ fuel k, push_rq capacity qs tid k fuel = none) := by
  constructor
  · intro fuel k j q hret
    obtain ⟨hq, hmem, hfulls⟩ := push_rq_success capacity qs tid fuel k j q hret
    exact ⟨hmem, hq, hfulls⟩
  · intro hfull
    exact push_rq_full_no_return capacity qs tid hfull

/-- C7 witness: a push into an empty queue of capacity 1 lands the tid, and
with a permanently full queue of capacity 1 the loop never returns. -/
theorem C7_push_rq_never_drops_witness :
    ((5 : Nat) ∈ ([] : List Nat) ++ [5] ∧
      ([] : List Nat) ++ [5] = (fun _ : Nat => ([] : List Nat)) 0 ++ [5]) ∧
    push_rq 1 (fun _ => [0]) 5 0 3 = none := by
  constructor
  · have h := (C7_push_rq_never_drops 1 (fun _ => ([] : List Nat)) 5).1 1 0 0
      (([] : List Nat) ++ [5]) rfl
    exact ⟨h.1, h.2.1⟩
  · exact (C7_push_rq_never_drops 1 (fun _ => [0]) 5).2 (fun i => by simp) 3 0

/-- C10: field independence — `set_last_run_ns` leaves the cumulated CPU time
unchanged, and `add_cumulated_cputime_ns` leaves the timestamp and the
main-task flag unchanged, for all arguments. -/
theorem C10_field_independence (s : CPUTimeStat) (ns : Int) (main : Bool)
    (delta : Int) (main2 : Bool) :
    (s.set_last_run_ns ns main).cumulated_cputime_ns = s.cumulated_cputime_ns ∧
    (s.add_cumulated_cputime_ns delta main2).last_run_ns = s.last_run_ns ∧
    (s.add_cumulated_cputime_ns delta main2).is_main_task = s.is_main_task := by
  refine ⟨rfl, ?_, ?_⟩ <;> cases main2 <;> rfl

end bthread
